import Mathlib

/-!
Verification of the loan amortization logic of the Loan-Management repository.

The repository has two source files, each containing its own copy of the
monthly-payment / amortization-schedule logic:

  * `loan_manager.py`, class `LoanScenarioAnalyzer`
      - `calculate_monthly_payment` uses `num_payments = years * 12` (a float,
        never rounded) as the exponent of the annuity formula;
      - `create_amortization_schedule` iterates `for month in range(int(years * 12))`
        and breaks as soon as the running balance drops to `<= 0`;
      - `scenario_analysis` reports `math.ceil(refi_costs / monthly_savings)`
        when `monthly_savings > 0` and the string `'N/A'` otherwise.
  * `loan_app.py`, class `LoanAnalyzer`
      - `num_payments = int(years * 12)` (Python `int` truncates toward zero);
      - `calculate_monthly_payment` uses that integer as the exponent, and in
        the zero-rate branch divides by `num_payments` (not by `years * 12`);
      - `create_amortization_schedule` runs `payment_num` from `1` to
        `num_payments`, carries a running date (defaulting to `datetime.now()`
        when no start date is passed) and a cumulative-interest accumulator,
        and breaks once the balance drops to `<= 0`.

Python float arithmetic is modelled exactly: real arithmetic (`ℝ`) for
`loan_manager.py`, whose payment formula takes a real exponent (`x ** y` on
floats), and rational arithmetic (`ℚ`) for `loan_app.py`, whose formula only
uses field operations and an integer power.  Lean's total division (`x / 0 = 0`)
stands in for Python's `ZeroDivisionError`; no theorem below depends on a
division by zero.  `datetime.now()` is modelled by making the start date an
explicit parameter.
-/

/-- Python `int(x)` on a real number: truncation toward zero. -/
noncomputable def pyTruncR (x : ℝ) : ℤ :=
  if 0 ≤ x then ⌊x⌋ else -⌊-x⌋

/-- Python `int(x)` on a rational number: truncation toward zero. -/
def pyTrunc (q : ℚ) : ℤ :=
  if 0 ≤ q then ⌊q⌋ else -⌊-q⌋

/-- `LoanScenarioAnalyzer.calculate_monthly_payment` (loan_manager.py, lines 25-33).
The exponent `num_payments = years * 12` is a float and is never rounded, so
`(1 + monthly_rate) ** num_payments` is a real power. -/
noncomputable def lmMonthlyPayment (principal annual_rate years : ℝ) : ℝ :=
  if annual_rate = 0 then principal / (years * 12)
  else
    let monthly_rate := annual_rate / 100 / 12
    let num_payments := years * 12
    principal * (monthly_rate * (1 + monthly_rate) ^ num_payments) /
      ((1 + monthly_rate) ^ num_payments - 1)

/-- Number of loop iterations of `LoanScenarioAnalyzer.create_amortization_schedule`:
`range(int(years * 12))` (loan_manager.py, line 47). -/
noncomputable def lmNumPeriods (years : ℝ) : ℤ :=
  pyTruncR (years * 12)

/-- One row of the schedule built by
`LoanScenarioAnalyzer.create_amortization_schedule` (loan_manager.py, lines 52-59). -/
structure LMRecord where
  payment : ℕ
  beginning_balance : ℝ
  payment_amount : ℝ
  principal : ℝ
  interest : ℝ
  ending_balance : ℝ

instance : Inhabited LMRecord :=
  ⟨⟨0, 0, 0, 0, 0, 0⟩⟩

/-- The loop body of `LoanScenarioAnalyzer.create_amortization_schedule`
(loan_manager.py, lines 47-62): each iteration accrues interest on the running
balance, subtracts the principal portion, appends a row (reconstructing the
beginning balance as `balance + principal_payment` and clamping the stored
ending balance with `max(0, balance)`), and breaks once `balance <= 0`. -/
noncomputable def lmLoop (monthly_rate monthly_payment : ℝ) :
    ℕ → ℕ → ℝ → List LMRecord
  | 0, _, _ => []
  | fuel + 1, month, balance =>
    let interest_payment := balance * monthly_rate
    let principal_payment := monthly_payment - interest_payment
    let balance' := balance - principal_payment
    let record : LMRecord :=
      { payment := month + 1
        beginning_balance := balance' + principal_payment
        payment_amount := monthly_payment
        principal := principal_payment
        interest := interest_payment
        ending_balance := max 0 balance' }
    if balance' ≤ 0 then [record]
    else record :: lmLoop monthly_rate monthly_payment fuel (month + 1) balance'

/-- `LoanScenarioAnalyzer.create_amortization_schedule` (loan_manager.py,
lines 39-64).  The `start_month` parameter appears in the Python signature with
default `1` but is never used by the body. -/
noncomputable def lmSchedule (principal annual_rate years : ℝ) (start_month : ℕ) :
    List LMRecord :=
  lmLoop (annual_rate / 100 / 12) (lmMonthlyPayment principal annual_rate years)
    (lmNumPeriods years).toNat 0 principal

/-- `num_payments = int(years * 12)` in `LoanAnalyzer.__init__` (loan_app.py, line 30). -/
def laNumPayments (years : ℚ) : ℤ :=
  pyTrunc (years * 12)

/-- `LoanAnalyzer.calculate_monthly_payment` (loan_app.py, lines 32-37).
Both the zero-rate divisor and the exponent use the truncated integer
`num_payments`. -/
def laMonthlyPayment (principal annual_rate years : ℚ) : ℚ :=
  let monthly_rate := annual_rate / 100 / 12
  let num_payments := laNumPayments years
  if annual_rate = 0 then principal / (num_payments : ℚ)
  else
    principal * (monthly_rate * (1 + monthly_rate) ^ num_payments) /
      ((1 + monthly_rate) ^ num_payments - 1)

/-- A calendar date as used by `loan_app.py`: the schedule labels each record
with `current_date.strftime('%Y-%m-%d')`, which determines and is determined by
the `(year, month, day)` triple. -/
structure PyDate where
  year : ℕ
  month : ℕ
  day : ℕ
deriving DecidableEq

instance : Inhabited PyDate :=
  ⟨⟨0, 0, 0⟩⟩

/-- The date advance of `LoanAnalyzer.create_amortization_schedule`
(loan_app.py, lines 66-70): month 12 rolls over into January of the next year,
any other month is incremented; the day is kept. -/
def nextMonth (d : PyDate) : PyDate :=
  if d.month = 12 then ⟨d.year + 1, 1, d.day⟩ else ⟨d.year, d.month + 1, d.day⟩

/-- One row of the schedule built by `LoanAnalyzer.create_amortization_schedule`
(loan_app.py, lines 55-64). -/
structure LARecord where
  payment_number : ℕ
  date : PyDate
  beginning_balance : ℚ
  monthly_payment : ℚ
  principal_payment : ℚ
  interest_payment : ℚ
  ending_balance : ℚ
  cumulative_interest : ℚ
deriving DecidableEq

instance : Inhabited LARecord :=
  ⟨⟨0, default, 0, 0, 0, 0, 0, 0⟩⟩

/-- The loop body of `LoanAnalyzer.create_amortization_schedule` (loan_app.py,
lines 49-73): like the loan_manager loop, but additionally numbering payments
from 1, carrying the running date and the cumulative interest, and breaking
after the record in which the balance drops to `<= 0`. -/
def laLoop (monthly_rate monthly_payment : ℚ) :
    ℕ → ℕ → PyDate → ℚ → ℚ → List LARecord
  | 0, _, _, _, _ => []
  | fuel + 1, payment_num, current_date, balance, cumulative_interest =>
    let interest_payment := balance * monthly_rate
    let principal_payment := monthly_payment - interest_payment
    let balance' := balance - principal_payment
    let cumulative_interest' := cumulative_interest + interest_payment
    let record : LARecord :=
      { payment_number := payment_num
        date := current_date
        beginning_balance := balance' + principal_payment
        monthly_payment := monthly_payment
        principal_payment := principal_payment
        interest_payment := interest_payment
        ending_balance := max 0 balance'
        cumulative_interest := cumulative_interest' }
    if balance' ≤ 0 then [record]
    else
      record :: laLoop monthly_rate monthly_payment fuel (payment_num + 1)
        (nextMonth current_date) balance' cumulative_interest'

/-- `LoanAnalyzer.create_amortization_schedule` (loan_app.py, lines 39-75).
Python defaults `start_date` to `datetime.now()`; here the effective start date
is an explicit parameter. -/
def laSchedule (principal annual_rate years : ℚ) (start_date : PyDate) :
    List LARecord :=
  laLoop (annual_rate / 100 / 12) (laMonthlyPayment principal annual_rate years)
    (laNumPayments years).toNat 1 start_date principal 0

/-- The balance update performed by one schedule iteration:
`balance -= monthly_payment - balance * monthly_rate`. -/
def laStep (monthly_rate monthly_payment balance : ℚ) : ℚ :=
  balance - (monthly_payment - balance * monthly_rate)

/-- The running balance after `n` schedule iterations. -/
def balAfter (monthly_rate monthly_payment : ℚ) : ℚ → ℕ → ℚ
  | b, 0 => b
  | b, n + 1 => balAfter monthly_rate monthly_payment (laStep monthly_rate monthly_payment b) n

/-- The break-even reported by `LoanScenarioAnalyzer.scenario_analysis`
(loan_manager.py, line 102): `math.ceil(refi_costs / monthly_savings)` when
`monthly_savings > 0`, and the distinct value `'N/A'` (modelled as `none`)
otherwise. -/
def lmBreakeven (refi_costs monthly_savings : ℚ) : Option ℤ :=
  if 0 < monthly_savings then some ⌈refi_costs / monthly_savings⌉ else none

/-- The break-even reported by `main` in loan_app.py (lines 199-203): the raw
quotient `refi_costs / savings` when `savings > 0`, and no break-even figure
(an error message about the monthly increase, modelled as `none`) otherwise. -/
def laBreakeven (refi_costs savings : ℚ) : Option ℚ :=
  if 0 < savings then some (refi_costs / savings) else none

/-- Modelled from the spec: the payment formula as §4.1 words it, with
`n = round(term_years × 12)` ("rounded to nearest whole period").  Used only to
compare the spec's formula against the two implementations. -/
noncomputable def specMonthlyPayment (principal annual_rate term_years : ℝ) : ℝ :=
  if annual_rate = 0 then principal / (term_years * 12)
  else
    let r := annual_rate / 100 / 12
    let n : ℤ := round (term_years * 12)
    principal * r * (1 + r) ^ n / ((1 + r) ^ n - 1)

/-! ### Unfolding equations for the schedule loops -/

theorem lmLoop_zero (r M : ℝ) (month : ℕ) (b : ℝ) :
    lmLoop r M 0 month b = [] := rfl

theorem lmLoop_succ (r M : ℝ) (fuel month : ℕ) (b : ℝ) :
    lmLoop r M (fuel + 1) month b =
      if b - (M - b * r) ≤ 0 then
        [⟨month + 1, b - (M - b * r) + (M - b * r), M, M - b * r, b * r,
          max 0 (b - (M - b * r))⟩]
      else
        (⟨month + 1, b - (M - b * r) + (M - b * r), M, M - b * r, b * r,
          max 0 (b - (M - b * r))⟩ : LMRecord) ::
          lmLoop r M fuel (month + 1) (b - (M - b * r)) := rfl

theorem laLoop_zero (r M : ℚ) (k : ℕ) (d : PyDate) (b ci : ℚ) :
    laLoop r M 0 k d b ci = [] := rfl

theorem laLoop_succ (r M : ℚ) (fuel k : ℕ) (d : PyDate) (b ci : ℚ) :
    laLoop r M (fuel + 1) k d b ci =
      if b - (M - b * r) ≤ 0 then
        [⟨k, d, b - (M - b * r) + (M - b * r), M, M - b * r, b * r,
          max 0 (b - (M - b * r)), ci + b * r⟩]
      else
        (⟨k, d, b - (M - b * r) + (M - b * r), M, M - b * r, b * r,
          max 0 (b - (M - b * r)), ci + b * r⟩ : LARecord) ::
          laLoop r M fuel (k + 1) (nextMonth d) (b - (M - b * r)) (ci + b * r) := rfl

/-! ### Structural lemmas about the loan_manager loop -/

theorem lmLoop_length_le (r M : ℝ) :
    ∀ fuel month b, (lmLoop r M fuel month b).length ≤ fuel := by
  intro fuel
  induction fuel with
  | zero => intro month b; simp [lmLoop_zero]
  | succ f ih =>
    intro month b
    rw [lmLoop_succ]
    split
    · simp
    · simpa [List.length_cons] using Nat.succ_le_succ (ih (month + 1) _)

theorem lmLoop_getD_zero (r M : ℝ) :
    ∀ fuel month b, 0 < (lmLoop r M fuel month b).length →
      ((lmLoop r M fuel month b).getD 0 default).beginning_balance = b := by
  intro fuel
  cases fuel with
  | zero => intro month b h; simp [lmLoop_zero] at h
  | succ f =>
    intro month b _
    rw [lmLoop_succ]
    split <;> simp

theorem lmLoop_chain (r M : ℝ) :
    ∀ fuel month b i, i + 1 < (lmLoop r M fuel month b).length →
      ((lmLoop r M fuel month b).getD (i + 1) default).beginning_balance =
        ((lmLoop r M fuel month b).getD i default).ending_balance := by
  intro fuel
  induction fuel with
  | zero => intro month b i h; simp [lmLoop_zero] at h
  | succ f ih =>
    intro month b i h
    rw [lmLoop_succ] at h ⊢
    by_cases hb' : b - (M - b * r) ≤ 0
    · rw [if_pos hb'] at h
      simp at h
    · rw [if_neg hb'] at h ⊢
      cases i with
      | zero =>
        have hlen : 0 < (lmLoop r M f (month + 1) (b - (M - b * r))).length := by
          simpa [List.length_cons] using h
        simp only [List.getD_cons_succ, List.getD_cons_zero]
        rw [lmLoop_getD_zero r M f (month + 1) _ hlen]
        simp [max_eq_right (le_of_lt (lt_of_not_le hb'))]
      | succ j =>
        simp only [List.getD_cons_succ]
        exact ih (month + 1) _ j (by simpa [List.length_cons] using h)

theorem lmLoop_beginning_pos (r M : ℝ) :
    ∀ fuel month b, 0 < b → ∀ i, i < (lmLoop r M fuel month b).length →
      0 < ((lmLoop r M fuel month b).getD i default).beginning_balance := by
  intro fuel
  induction fuel with
  | zero => intro month b _ i h; simp [lmLoop_zero] at h
  | succ f ih =>
    intro month b hb i h
    rw [lmLoop_succ] at h ⊢
    by_cases hb' : b - (M - b * r) ≤ 0
    · rw [if_pos hb'] at h ⊢
      have hi : i = 0 := by simpa [Nat.lt_one_iff] using h
      subst hi
      simp only [List.getD_cons_zero]
      show 0 < b - (M - b * r) + (M - b * r)
      linarith
    · rw [if_neg hb'] at h ⊢
      cases i with
      | zero =>
        simp only [List.getD_cons_zero]
        show 0 < b - (M - b * r) + (M - b * r)
        linarith
      | succ j =>
        simp only [List.getD_cons_succ]
        exact ih (month + 1) _ (lt_of_not_le hb') j
          (by simpa [List.length_cons] using h)

theorem lmLoop_zero_rate (M : ℝ) :
    ∀ fuel month b rec, rec ∈ lmLoop 0 M fuel month b →
      rec.interest = 0 ∧ rec.principal = rec.payment_amount := by
  intro fuel
  induction fuel with
  | zero => intro month b rec h; simp [lmLoop_zero] at h
  | succ f ih =>
    intro month b rec h
    rw [lmLoop_succ] at h
    by_cases hb' : b - (M - b * 0) ≤ 0
    · rw [if_pos hb'] at h
      simp only [List.mem_singleton] at h
      subst h
      constructor <;> simp
    · rw [if_neg hb'] at h
      rcases List.mem_cons.mp h with h1 | h2
      · subst h1
        constructor <;> simp
      · exact ih _ _ _ h2

/-! ### Structural lemmas about the loan_app loop -/

theorem laLoop_length_le (r M : ℚ) :
    ∀ fuel k d b ci, (laLoop r M fuel k d b ci).length ≤ fuel := by
  intro fuel
  induction fuel with
  | zero => intro k d b ci; simp [laLoop_zero]
  | succ f ih =>
    intro k d b ci
    rw [laLoop_succ]
    split
    · simp
    · simpa [List.length_cons] using Nat.succ_le_succ (ih (k + 1) _ _ _)

theorem laLoop_getD_zero (r M : ℚ) :
    ∀ fuel k d b ci, 0 < (laLoop r M fuel k d b ci).length →
      ((laLoop r M fuel k d b ci).getD 0 default).beginning_balance = b := by
  intro fuel
  cases fuel with
  | zero => intro k d b ci h; simp [laLoop_zero] at h
  | succ f =>
    intro k d b ci _
    rw [laLoop_succ]
    split <;> simp

theorem laLoop_chain (r M : ℚ) :
    ∀ fuel k d b ci i, i + 1 < (laLoop r M fuel k d b ci).length →
      ((laLoop r M fuel k d b ci).getD (i + 1) default).beginning_balance =
        ((laLoop r M fuel k d b ci).getD i default).ending_balance := by
  intro fuel
  induction fuel with
  | zero => intro k d b ci i h; simp [laLoop_zero] at h
  | succ f ih =>
    intro k d b ci i h
    rw [laLoop_succ] at h ⊢
    by_cases hb' : b - (M - b * r) ≤ 0
    · rw [if_pos hb'] at h
      simp at h
    · rw [if_neg hb'] at h ⊢
      cases i with
      | zero =>
        have hlen :
            0 < (laLoop r M f (k + 1) (nextMonth d) (b - (M - b * r)) (ci + b * r)).length := by
          simpa [List.length_cons] using h
        simp only [List.getD_cons_succ, List.getD_cons_zero]
        rw [laLoop_getD_zero r M f (k + 1) _ _ _ hlen]
        simp [max_eq_right (le_of_lt (lt_of_not_le hb'))]
      | succ j =>
        simp only [List.getD_cons_succ]
        exact ih (k + 1) _ _ _ j (by simpa [List.length_cons] using h)

theorem laLoop_beginning_pos (r M : ℚ) :
    ∀ fuel k d b ci, 0 < b → ∀ i, i < (laLoop r M fuel k d b ci).length →
      0 < ((laLoop r M fuel k d b ci).getD i default).beginning_balance := by
  intro fuel
  induction fuel with
  | zero => intro k d b ci _ i h; simp [laLoop_zero] at h
  | succ f ih =>
    intro k d b ci hb i h
    rw [laLoop_succ] at h ⊢
    by_cases hb' : b - (M - b * r) ≤ 0
    · rw [if_pos hb'] at h ⊢
      have hi : i = 0 := by simpa [Nat.lt_one_iff] using h
      subst hi
      simp only [List.getD_cons_zero]
      show 0 < b - (M - b * r) + (M - b * r)
      linarith
    · rw [if_neg hb'] at h ⊢
      cases i with
      | zero =>
        simp only [List.getD_cons_zero]
        show 0 < b - (M - b * r) + (M - b * r)
        linarith
      | succ j =>
        simp only [List.getD_cons_succ]
        exact ih (k + 1) _ _ _ (lt_of_not_le hb') j
          (by simpa [List.length_cons] using h)

theorem laLoop_zero_rate (M : ℚ) :
    ∀ fuel k d b ci rec, rec ∈ laLoop 0 M fuel k d b ci →
      rec.interest_payment = 0 ∧ rec.principal_payment = rec.monthly_payment := by
  intro fuel
  induction fuel with
  | zero => intro k d b ci rec h; simp [laLoop_zero] at h
  | succ f ih =>
    intro k d b ci rec h
    rw [laLoop_succ] at h
    by_cases hb' : b - (M - b * 0) ≤ 0
    · rw [if_pos hb'] at h
      simp only [List.mem_singleton] at h
      subst h
      constructor <;> simp
    · rw [if_neg hb'] at h
      rcases List.mem_cons.mp h with h1 | h2
      · subst h1
        constructor <;> simp
      · exact ih _ _ _ _ _ h2

theorem laLoop_ne_nil (r M : ℚ) (fuel k : ℕ) (d : PyDate) (b ci : ℚ)
    (h : 0 < fuel) : laLoop r M fuel k d b ci ≠ [] := by
  cases fuel with
  | zero => exact absurd h (lt_irrefl 0)
  | succ f =>
    rw [laLoop_succ]
    split <;> simp

/-! ### The running balance in closed form -/

theorem balAfter_closed (r M : ℚ) (hr : r ≠ 0) :
    ∀ (n : ℕ) (b : ℚ),
      balAfter r M b n = (1 + r) ^ n * b - M * ((1 + r) ^ n - 1) / r := by
  intro n
  induction n with
  | zero => intro b; simp [balAfter]
  | succ m ih =>
    intro b
    rw [show balAfter r M b (m + 1) = balAfter r M (laStep r M b) m from rfl, ih,
      laStep]
    field_simp
    ring

theorem balAfter_zero_rate (M : ℚ) :
    ∀ (n : ℕ) (b : ℚ), balAfter 0 M b n = b - n * M := by
  intro n
  induction n with
  | zero => intro b; simp [balAfter]
  | succ m ih =>
    intro b
    rw [show balAfter 0 M b (m + 1) = balAfter 0 M (laStep 0 M b) m from rfl, ih,
      laStep]
    push_cast
    ring

theorem laLoop_getLast_ending (r M : ℚ) :
    ∀ fuel k d b ci, 0 < fuel → balAfter r M b fuel ≤ 0 →
      ((laLoop r M fuel k d b ci).getLast?.map LARecord.ending_balance) = some 0 := by
  intro fuel
  induction fuel with
  | zero => intro k d b ci h _; exact absurd h (lt_irrefl 0)
  | succ f ih =>
    intro k d b ci _ hbal
    rw [laLoop_succ]
    by_cases hb' : b - (M - b * r) ≤ 0
    · rw [if_pos hb']
      simp [max_eq_left hb']
    · rw [if_neg hb']
      cases f with
      | zero =>
        exact absurd hbal (by simpa [balAfter, laStep] using hb')
      | succ g =>
        have hne := laLoop_ne_nil r M (g + 1) (k + 1) (nextMonth d)
          (b - (M - b * r)) (ci + b * r) (Nat.succ_pos g)
        obtain ⟨x, xs, hx⟩ := List.exists_cons_of_ne_nil hne
        rw [hx, List.getLast?_cons_cons, ← hx]
        exact ih (k + 1) (nextMonth d) _ _ (Nat.succ_pos g) hbal

/-! ### Concrete evaluations used by the claim theorems and their witnesses -/

theorem rpow_four_threeHalves : (4 : ℝ) ^ ((3 : ℝ) / 2) = 8 := by
  have h4 : (4 : ℝ) = 2 ^ (2 : ℝ) := by
    rw [show (2 : ℝ) ^ (2 : ℝ) = 2 ^ (2 : ℕ) from Real.rpow_natCast 2 2]
    norm_num
  rw [h4, ← Real.rpow_mul (by norm_num : (0 : ℝ) ≤ 2)]
  rw [show (2 : ℝ) * (3 / 2) = ((3 : ℕ) : ℝ) by norm_num]
  rw [Real.rpow_natCast]
  norm_num

theorem lmMonthlyPayment_unrounded : lmMonthlyPayment 1 3600 (1/8) = 24/7 := by
  simp only [lmMonthlyPayment]
  rw [if_neg (by norm_num : ¬ ((3600 : ℝ) = 0))]
  rw [show ((1 : ℝ) + 3600 / 100 / 12) = 4 by norm_num,
    show ((1/8 : ℝ) * 12) = 3/2 by norm_num, rpow_four_threeHalves]
  norm_num

theorem specMonthlyPayment_rounded : specMonthlyPayment 1 3600 (1/8) = 16/5 := by
  simp only [specMonthlyPayment]
  rw [if_neg (by norm_num : ¬ ((3600 : ℝ) = 0))]
  rw [show ((1 : ℝ) + 3600 / 100 / 12) = 4 by norm_num,
    show round ((1/8 : ℝ) * 12) = 2 by norm_num [round_eq]]
  norm_num

theorem lmMonthlyPayment_frac_term : lmMonthlyPayment 7 3600 (1/8) = 24 := by
  simp only [lmMonthlyPayment]
  rw [if_neg (by norm_num : ¬ ((3600 : ℝ) = 0))]
  rw [show ((1 : ℝ) + 3600 / 100 / 12) = 4 by norm_num,
    show ((1/8 : ℝ) * 12) = 3/2 by norm_num, rpow_four_threeHalves]
  norm_num

theorem lmSchedule_frac_term : lmSchedule 7 3600 (1/8) 1 = [⟨1, 7, 24, 3, 21, 4⟩] := by
  norm_num [lmSchedule, lmLoop, lmNumPeriods, pyTruncR, lmMonthlyPayment_frac_term]

theorem lmSchedule_two_records :
    lmSchedule 1200 0 (1/6) 1 =
      [⟨1, 1200, 600, 600, 0, 600⟩, ⟨2, 600, 600, 600, 0, 0⟩] := by
  norm_num [lmSchedule, lmLoop, lmMonthlyPayment, lmNumPeriods, pyTruncR]

theorem laSchedule_two_records :
    laSchedule 1200 0 (1/6) ⟨2025, 1, 1⟩ =
      [⟨1, ⟨2025, 1, 1⟩, 1200, 600, 600, 0, 600, 0⟩,
       ⟨2, ⟨2025, 2, 1⟩, 600, 600, 600, 0, 0, 0⟩] := by
  norm_num [laSchedule, laLoop, laMonthlyPayment, laNumPayments, pyTrunc, nextMonth]

/-! ### Claim C1 -/

/-- C1 is false as stated: the claim (and spec §4.1) require the exponent
`n = round(term_years × 12)`, but `LoanScenarioAnalyzer.calculate_monthly_payment`
uses the unrounded real exponent `term_years × 12`.  At `principal = 1`,
`annual_rate = 3600`, `term_years = 1/8` (all inside the claim's domain) the code
computes with exponent `1.5` and returns `24/7 ≈ 3.43`, while the claimed formula
with `n = round(1.5) = 2` gives `16/5 = 3.2`. -/
theorem c1_round_counterexample :
    lmMonthlyPayment 1 3600 (1/8) = 24/7
    ∧ specMonthlyPayment 1 3600 (1/8) = 16/5
    ∧ lmMonthlyPayment 1 3600 (1/8) ≠ specMonthlyPayment 1 3600 (1/8) := by
  refine ⟨lmMonthlyPayment_unrounded, specMonthlyPayment_rounded, ?_⟩
  rw [lmMonthlyPayment_unrounded, specMonthlyPayment_rounded]
  norm_num

/-- C1 (amended): for inputs with `principal > 0`, `annual_rate > 0`,
`term_years > 0`, both implementations apply the annuity formula with
`r = annual_rate/100/12`, but the exponent is `term_years × 12` itself (a real
power, never rounded) in `LoanScenarioAnalyzer.calculate_monthly_payment` and
the truncation `int(term_years × 12)` in `LoanAnalyzer.calculate_monthly_payment`;
when `term_years × 12` is a whole number the loan_manager result coincides with
the spec's formula (`n = round(term_years × 12)`). -/
theorem c1_payment_formula (p a y : ℝ) (q b z : ℚ) (ha : 0 < a) (hb : 0 < b)
    (m : ℕ) (hm : y * 12 = (m : ℝ)) :
    lmMonthlyPayment p a y =
      p * (a / 100 / 12 * (1 + a / 100 / 12) ^ (y * 12)) /
        ((1 + a / 100 / 12) ^ (y * 12) - 1)
    ∧ laMonthlyPayment q b z =
      q * (b / 100 / 12 * (1 + b / 100 / 12) ^ laNumPayments z) /
        ((1 + b / 100 / 12) ^ laNumPayments z - 1)
    ∧ lmMonthlyPayment p a y = specMonthlyPayment p a y := by
  have hane : a ≠ 0 := ne_of_gt ha
  refine ⟨?_, ?_, ?_⟩
  · simp only [lmMonthlyPayment]
    rw [if_neg hane]
  · simp only [laMonthlyPayment]
    rw [if_neg (ne_of_gt hb)]
  · simp only [lmMonthlyPayment, specMonthlyPayment]
    rw [if_neg hane, if_neg hane, hm, Real.rpow_natCast,
      show round ((m : ℕ) : ℝ) = ((m : ℕ) : ℤ) from round_natCast m, zpow_natCast]
    ring

/-- Witness for the amended C1 theorem at `(1, 1200, 1)` (a 12 % loan for one
year, 12 whole periods). -/
theorem c1_payment_formula_witness :
    (0 : ℝ) < 1200 ∧ (0 : ℚ) < 1200 ∧ (1 : ℝ) * 12 = ((12 : ℕ) : ℝ) ∧
      (lmMonthlyPayment 1 1200 1 =
        1 * (1200 / 100 / 12 * (1 + 1200 / 100 / 12) ^ ((1 : ℝ) * 12)) /
          ((1 + 1200 / 100 / 12) ^ ((1 : ℝ) * 12) - 1)
      ∧ laMonthlyPayment 1 1200 1 =
        1 * (1200 / 100 / 12 * (1 + 1200 / 100 / 12) ^ laNumPayments 1) /
          ((1 + 1200 / 100 / 12) ^ laNumPayments 1 - 1)
      ∧ lmMonthlyPayment 1 1200 1 = specMonthlyPayment 1 1200 1) :=
  ⟨by norm_num, by norm_num, by norm_num,
    c1_payment_formula 1 1200 1 1 1200 1 (by norm_num) (by norm_num) 12 (by norm_num)⟩

/-! ### Claim C2 -/

/-- C2 is false as stated: for `annual_rate = 0` the claim requires
`principal / (term_years × 12)`, but `LoanAnalyzer.calculate_monthly_payment`
divides by the truncated integer `num_payments = int(term_years × 12)`.
At `principal = 3`, `term_years = 1/8` the code returns `3 / int(1.5) = 3`,
while the claimed value is `3 / 1.5 = 2`. -/
theorem c2_zero_rate_counterexample :
    laMonthlyPayment 3 0 (1/8) = 3
    ∧ (3 : ℚ) / ((1/8) * 12) = 2
    ∧ (3 : ℚ) ≠ 2 := by
  refine ⟨?_, by norm_num, by norm_num⟩
  norm_num [laMonthlyPayment, laNumPayments, pyTrunc]

/-- C2 (amended): with `annual_rate = 0`,
`LoanScenarioAnalyzer.calculate_monthly_payment` returns
`principal / (term_years × 12)` while `LoanAnalyzer.calculate_monthly_payment`
returns `principal / int(term_years × 12)` (the two agree whenever
`term_years × 12` is whole); the concrete case `principal = 120000`,
`term_years = 10` yields exactly `1000` in both, and every record of a
zero-rate schedule (either implementation) has a zero interest portion and a
principal portion equal to its payment amount. -/
theorem c2_zero_rate_payment (p y : ℝ) (q z : ℚ) (s : ℕ) (d : PyDate)
    (hp : 0 < p) (hy : 0 < y) (hq : 0 < q) (hz : 0 < z)
    (rec : LMRecord) (rec2 : LARecord)
    (hrec : rec ∈ lmSchedule p 0 y s) (hrec2 : rec2 ∈ laSchedule q 0 z d) :
    lmMonthlyPayment p 0 y = p / (y * 12)
    ∧ laMonthlyPayment q 0 z = q / (laNumPayments z : ℚ)
    ∧ lmMonthlyPayment 120000 0 10 = 1000
    ∧ laMonthlyPayment 120000 0 10 = 1000
    ∧ rec.interest = 0 ∧ rec.principal = rec.payment_amount
    ∧ rec2.interest_payment = 0 ∧ rec2.principal_payment = rec2.monthly_payment := by
  simp only [lmSchedule, zero_div] at hrec
  simp only [laSchedule, zero_div] at hrec2
  have h5 := lmLoop_zero_rate (lmMonthlyPayment p 0 y) _ _ _ _ hrec
  have h6 := laLoop_zero_rate (laMonthlyPayment q 0 z) _ _ _ _ _ _ hrec2
  refine ⟨?_, ?_, ?_, ?_, h5.1, h5.2, h6.1, h6.2⟩
  · simp [lmMonthlyPayment]
  · simp [laMonthlyPayment]
  · norm_num [lmMonthlyPayment]
  · norm_num [laMonthlyPayment, laNumPayments, pyTrunc]

/-- Witness for the amended C2 theorem: the zero-rate loan
`(1200, 0, 1/6)` whose two-record schedules are computed explicitly. -/
theorem c2_zero_rate_payment_witness :
    (0 : ℝ) < 1200 ∧ (0 : ℚ) < 1200 ∧
      (⟨1, 1200, 600, 600, 0, 600⟩ : LMRecord) ∈ lmSchedule 1200 0 (1/6) 1 ∧
      (⟨1, ⟨2025, 1, 1⟩, 1200, 600, 600, 0, 600, 0⟩ : LARecord) ∈
        laSchedule 1200 0 (1/6) ⟨2025, 1, 1⟩ ∧
      (lmMonthlyPayment 1200 0 (1/6) = 1200 / ((1/6) * 12)
      ∧ laMonthlyPayment 1200 0 (1/6) = 1200 / (laNumPayments (1/6) : ℚ)
      ∧ lmMonthlyPayment 120000 0 10 = 1000
      ∧ laMonthlyPayment 120000 0 10 = 1000
      ∧ (⟨1, 1200, 600, 600, 0, 600⟩ : LMRecord).interest = 0
      ∧ (⟨1, 1200, 600, 600, 0, 600⟩ : LMRecord).principal =
          (⟨1, 1200, 600, 600, 0, 600⟩ : LMRecord).payment_amount
      ∧ (⟨1, ⟨2025, 1, 1⟩, 1200, 600, 600, 0, 600, 0⟩ : LARecord).interest_payment = 0
      ∧ (⟨1, ⟨2025, 1, 1⟩, 1200, 600, 600, 0, 600, 0⟩ : LARecord).principal_payment =
          (⟨1, ⟨2025, 1, 1⟩, 1200, 600, 600, 0, 600, 0⟩ : LARecord).monthly_payment) := by
  have hmem1 : (⟨1, 1200, 600, 600, 0, 600⟩ : LMRecord) ∈ lmSchedule 1200 0 (1/6) 1 := by
    rw [lmSchedule_two_records]
    simp
  have hmem2 : (⟨1, ⟨2025, 1, 1⟩, 1200, 600, 600, 0, 600, 0⟩ : LARecord) ∈
      laSchedule 1200 0 (1/6) ⟨2025, 1, 1⟩ := by
    rw [laSchedule_two_records]
    simp
  exact ⟨by norm_num, by norm_num, hmem1, hmem2,
    c2_zero_rate_payment 1200 (1/6) 1200 (1/6) 1 ⟨2025, 1, 1⟩ (by norm_num)
      (by norm_num) (by norm_num) (by norm_num) _ _ hmem1 hmem2⟩

/-! ### Claim C3 -/

/-- C3: in every schedule produced from valid inputs (either implementation),
the first record's beginning balance is the principal, and each later record's
beginning balance equals the previous record's ending balance: a record `i + 1`
only exists if the loop did not break after record `i`, i.e. if the running
balance stayed positive, in which case the clamped ending balance stored in
record `i` equals that running balance. -/
theorem c3_balance_chain (p a y : ℝ) (q b z : ℚ) (s : ℕ) (d : PyDate) (i j : ℕ)
    (hp : 0 < p) (ha : 0 ≤ a) (hy : 0 < y)
    (hq : 0 < q) (hb : 0 ≤ b) (hz : 0 < z)
    (hi : i + 1 < (lmSchedule p a y s).length)
    (hj : j + 1 < (laSchedule q b z d).length) :
    ((lmSchedule p a y s).getD 0 default).beginning_balance = p
    ∧ ((lmSchedule p a y s).getD (i + 1) default).beginning_balance =
        ((lmSchedule p a y s).getD i default).ending_balance
    ∧ ((laSchedule q b z d).getD 0 default).beginning_balance = q
    ∧ ((laSchedule q b z d).getD (j + 1) default).beginning_balance =
        ((laSchedule q b z d).getD j default).ending_balance := by
  simp only [lmSchedule] at hi ⊢
  simp only [laSchedule] at hj ⊢
  exact ⟨lmLoop_getD_zero _ _ _ _ _ (by omega), lmLoop_chain _ _ _ _ _ _ hi,
    laLoop_getD_zero _ _ _ _ _ _ _ (by omega), laLoop_chain _ _ _ _ _ _ _ _ hj⟩

/-- Witness for C3 at the zero-rate loan `(1200, 0, 1/6)`, whose schedules have
two records in both implementations. -/
theorem c3_balance_chain_witness :
    0 + 1 < (lmSchedule 1200 0 (1/6) 1).length ∧
    0 + 1 < (laSchedule 1200 0 (1/6) ⟨2025, 1, 1⟩).length ∧
      (((lmSchedule 1200 0 (1/6) 1).getD 0 default).beginning_balance = 1200
      ∧ ((lmSchedule 1200 0 (1/6) 1).getD (0 + 1) default).beginning_balance =
          ((lmSchedule 1200 0 (1/6) 1).getD 0 default).ending_balance
      ∧ ((laSchedule 1200 0 (1/6) ⟨2025, 1, 1⟩).getD 0 default).beginning_balance = 1200
      ∧ ((laSchedule 1200 0 (1/6) ⟨2025, 1, 1⟩).getD (0 + 1) default).beginning_balance =
          ((laSchedule 1200 0 (1/6) ⟨2025, 1, 1⟩).getD 0 default).ending_balance) := by
  have h1 : 0 + 1 < (lmSchedule 1200 0 (1/6) 1).length := by
    rw [lmSchedule_two_records]
    norm_num
  have h2 : 0 + 1 < (laSchedule 1200 0 (1/6) ⟨2025, 1, 1⟩).length := by
    rw [laSchedule_two_records]
    norm_num
  exact ⟨h1, h2,
    c3_balance_chain 1200 0 (1/6) 1200 0 (1/6) 1 ⟨2025, 1, 1⟩ 0 0 (by norm_num)
      le_rfl (by norm_num) (by norm_num) le_rfl (by norm_num) h1 h2⟩

/-! ### Claim C4 -/

/-- C4 is false as stated: with `principal = 7`, `annual_rate = 3600`,
`term_years = 1/8` (valid per the spec: positive principal, nonnegative rate,
positive term), `LoanScenarioAnalyzer.create_amortization_schedule` computes the
payment with the unrounded exponent `1.5` but iterates only `int(1.5) = 1`
time, so the single (hence final) record has ending balance `4`, not `0`. -/
theorem c4_final_balance_counterexample :
    (lmSchedule 7 3600 (1/8) 1).getLast?.map LMRecord.ending_balance = some 4
    ∧ (4 : ℝ) ≠ 0 := by
  constructor
  · rw [lmSchedule_frac_term]
    rfl
  · norm_num

/-- C4 (amended): for `LoanAnalyzer.create_amortization_schedule` (whose payment
uses the same truncated period count as its loop) the final record's ending
balance is exactly `0` for every valid input with at least one period; for
`LoanScenarioAnalyzer` this can fail when `term_years × 12` is fractional (see
the counterexample).  Either the loop breaks early, in which case the clamped
ending balance is `0`, or it runs all `n = int(term_years × 12)` periods, after
which the running balance is exactly `0` in exact arithmetic. -/
theorem annuity_cancel (r A p : ℚ) (hr : r ≠ 0) (hA : A - 1 ≠ 0) :
    A * p - p * (r * A) / (A - 1) * (A - 1) / r = 0 := by
  field_simp
  ring

theorem c4_final_balance_zero (p a y : ℚ) (d : PyDate)
    (hp : 0 < p) (ha : 0 ≤ a) (hy : 0 < y) (hn : 1 ≤ laNumPayments y) :
    (laSchedule p a y d).getLast?.map LARecord.ending_balance = some 0 := by
  have hn0 : laNumPayments y = ((laNumPayments y).toNat : ℤ) := by omega
  set n : ℕ := (laNumPayments y).toNat with hn_def
  have hn1 : 1 ≤ n := by omega
  have hbal : balAfter (a / 100 / 12) (laMonthlyPayment p a y) p n ≤ 0 := by
    rcases eq_or_lt_of_le ha with ha0 | hapos
    · rw [← ha0]
      rw [show (0 : ℚ) / 100 / 12 = 0 by norm_num]
      rw [balAfter_zero_rate]
      have hM : laMonthlyPayment p 0 y = p / (laNumPayments y : ℚ) := by
        simp [laMonthlyPayment]
      have hne : (n : ℚ) ≠ 0 := Nat.cast_ne_zero.mpr (by omega)
      rw [hM, hn0]
      push_cast
      exact le_of_eq (by field_simp)
    · have hane : a ≠ 0 := ne_of_gt hapos
      have hr : (0 : ℚ) < a / 100 / 12 := by positivity
      have hrne : a / 100 / 12 ≠ 0 := ne_of_gt hr
      have hM : laMonthlyPayment p a y =
          p * (a / 100 / 12 * (1 + a / 100 / 12) ^ n) /
            ((1 + a / 100 / 12) ^ n - 1) := by
        simp only [laMonthlyPayment]
        rw [if_neg hane, hn0, zpow_natCast]
      have hA : 1 < (1 + a / 100 / 12) ^ n :=
        one_lt_pow₀ (by linarith) (by omega)
      have hA1 : (1 + a / 100 / 12) ^ n - 1 ≠ 0 :=
        sub_ne_zero.mpr (ne_of_gt hA)
      rw [balAfter_closed _ _ hrne, hM]
      exact le_of_eq
        (annuity_cancel (a / 100 / 12) ((1 + a / 100 / 12) ^ n) p hrne hA1)
  simp only [laSchedule]
  exact laLoop_getLast_ending _ _ n 1 d p 0 (by omega) hbal

/-- Witness for the amended C4 theorem at the zero-rate loan `(1200, 0, 1/6)`. -/
theorem c4_final_balance_zero_witness :
    (0 : ℚ) < 1200 ∧ (0 : ℚ) ≤ 0 ∧ (0 : ℚ) < 1/6 ∧ 1 ≤ laNumPayments (1/6) ∧
      (laSchedule 1200 0 (1/6) ⟨2025, 1, 1⟩).getLast?.map LARecord.ending_balance =
        some 0 := by
  have hn : 1 ≤ laNumPayments (1/6) := by norm_num [laNumPayments, pyTrunc]
  exact ⟨by norm_num, le_rfl, by norm_num, hn,
    c4_final_balance_zero 1200 0 (1/6) ⟨2025, 1, 1⟩ (by norm_num) le_rfl
      (by norm_num) hn⟩

/-! ### Claim C5 -/

/-- C5 is false as stated: the claim requires
`breakeven_periods = one_time_cost / monthly_savings`, but
`LoanScenarioAnalyzer.scenario_analysis` reports
`math.ceil(refi_costs / monthly_savings)`.  At costs `3000` and savings `501`
(the spec's own §8 example) the code reports `6`, not `3000/501 ≈ 5.99`. -/
theorem c5_breakeven_counterexample :
    lmBreakeven 3000 501 = some 6
    ∧ (lmBreakeven 3000 501).map (fun z => (z : ℚ)) ≠ some ((3000 : ℚ) / 501) := by
  have hceil : ⌈(3000 : ℚ) / 501⌉ = 6 := by
    rw [Int.ceil_eq_iff]
    norm_num
  have h : lmBreakeven 3000 501 = some 6 := by
    rw [lmBreakeven, if_pos (by norm_num : (0 : ℚ) < 501), hceil]
  refine ⟨h, ?_⟩
  rw [h]
  intro hcon
  have h6 : ((6 : ℤ) : ℚ) = (3000 : ℚ) / 501 := Option.some.inj hcon
  norm_num at h6

/-- C5 (amended): when `monthly_savings > 0`,
`LoanScenarioAnalyzer.scenario_analysis` reports the ceiling
`⌈one_time_cost / monthly_savings⌉` while the loan_app refinancing tab reports
the raw quotient; both are positive for a positive one-time cost.  When
`monthly_savings ≤ 0` both report a distinct "not applicable" value — never
zero, infinity, or a negative number. -/
theorem c5_breakeven (c s : ℚ) (hc : 0 < c) :
    (0 < s → lmBreakeven c s = some ⌈c / s⌉ ∧ 0 < ⌈c / s⌉
      ∧ laBreakeven c s = some (c / s) ∧ 0 < c / s)
    ∧ (s ≤ 0 → lmBreakeven c s = none ∧ laBreakeven c s = none) := by
  constructor
  · intro hs
    exact ⟨by simp [lmBreakeven, hs], Int.ceil_pos.mpr (div_pos hc hs),
      by simp [laBreakeven, hs], div_pos hc hs⟩
  · intro hs
    exact ⟨by simp [lmBreakeven, not_lt.mpr hs], by simp [laBreakeven, not_lt.mpr hs]⟩

/-- Witness for the amended C5 theorem at costs `3000` with savings `501`
(positive case) and `-1` (not-applicable case). -/
theorem c5_breakeven_witness :
    (0 : ℚ) < 3000 ∧
      (lmBreakeven 3000 501 = some ⌈(3000 : ℚ) / 501⌉ ∧ 0 < ⌈(3000 : ℚ) / 501⌉
        ∧ laBreakeven 3000 501 = some ((3000 : ℚ) / 501) ∧ 0 < (3000 : ℚ) / 501)
      ∧ (lmBreakeven 3000 (-1) = none ∧ laBreakeven 3000 (-1) = none) :=
  ⟨by norm_num, (c5_breakeven 3000 501 (by norm_num)).1 (by norm_num),
    (c5_breakeven 3000 (-1) (by norm_num)).2 (by norm_num)⟩

/-! ### Claim C6 -/

/-- C6 is false: neither implementation performs any input validation.  At the
invalid input `principal = -1200`, `annual_rate = 0`, `term_years = 1`, both
payment functions return the ordinary value `-100` instead of failing, and
`LoanAnalyzer.create_amortization_schedule` emits a payment record. -/
theorem c6_no_validation_counterexample :
    lmMonthlyPayment (-1200) 0 1 = -100
    ∧ laMonthlyPayment (-1200) 0 1 = -100
    ∧ (laSchedule (-1200) 0 1 ⟨2025, 1, 1⟩).length = 1 := by
  refine ⟨?_, ?_, ?_⟩
  · norm_num [lmMonthlyPayment]
  · norm_num [laMonthlyPayment, laNumPayments, pyTrunc]
  · have h12 : laNumPayments 1 = 12 := by
      norm_num [laNumPayments, pyTrunc]
    have hfuel : (laNumPayments 1).toNat = 11 + 1 := by
      rw [h12]
      rfl
    have hM : laMonthlyPayment (-1200) 0 1 = -100 := by
      norm_num [laMonthlyPayment, laNumPayments, pyTrunc]
    simp only [laSchedule, hM, hfuel, laLoop_succ]
    rw [if_pos (by norm_num : (-1200 : ℚ) - (-100 - -1200 * (0 / 100 / 12)) ≤ 0)]
    norm_num

/-- C6 (amended): the code performs no validation at all: for a negative
principal (with zero rate and a positive term) `calculate_monthly_payment`
returns a negative "payment" rather than an `InvalidArgument` failure, and
`create_amortization_schedule` still emits at least one record. -/
theorem c6_no_validation (p y : ℚ) (d : PyDate) (hp : p < 0)
    (hn : 1 ≤ laNumPayments y) :
    laMonthlyPayment p 0 y < 0 ∧ 1 ≤ (laSchedule p 0 y d).length := by
  constructor
  · have hM : laMonthlyPayment p 0 y = p / (laNumPayments y : ℚ) := by
      simp [laMonthlyPayment]
    rw [hM]
    exact div_neg_of_neg_of_pos hp (by exact_mod_cast hn)
  · simp only [laSchedule]
    exact List.length_pos.mpr (laLoop_ne_nil _ _ _ _ _ _ _ (by omega))

/-- Witness for the amended C6 theorem at `(-1200, 1)`. -/
theorem c6_no_validation_witness :
    (-1200 : ℚ) < 0 ∧ 1 ≤ laNumPayments 1 ∧
      (laMonthlyPayment (-1200) 0 1 < 0
        ∧ 1 ≤ (laSchedule (-1200) 0 1 ⟨2025, 1, 1⟩).length) := by
  have hn : 1 ≤ laNumPayments 1 := by norm_num [laNumPayments, pyTrunc]
  exact ⟨by norm_num, hn,
    c6_no_validation (-1200) 1 ⟨2025, 1, 1⟩ (by norm_num) hn⟩

/-! ### Claim C7 -/

/-- C7: both schedule loops run at most `int(term_years × 12)` iterations, which
is at most `round(term_years × 12)`, so a schedule never has more than
`round(term_years × 12)` records (the balance check is only an early exit); and
a fractional term of `27.5` years gives `int(27.5 × 12) = 330` loop iterations
in both implementations, not a truncation to 27 years. -/
theorem c7_length_bound (p a y : ℝ) (q b z : ℚ) (s : ℕ) (d : PyDate)
    (hy : 0 < y) (hz : 0 < z) :
    (lmSchedule p a y s).length ≤ (round (y * 12)).toNat
    ∧ (laSchedule q b z d).length ≤ (round (z * 12)).toNat
    ∧ lmNumPeriods (55/2 : ℝ) = 330
    ∧ laNumPayments (55/2 : ℚ) = 330 := by
  refine ⟨?_, ?_, ?_, ?_⟩
  · have h1 : (lmSchedule p a y s).length ≤ (lmNumPeriods y).toNat := by
      simp only [lmSchedule]
      exact lmLoop_length_le _ _ _ _ _
    refine le_trans h1 (Int.toNat_le_toNat ?_)
    simp only [lmNumPeriods, pyTruncR]
    rw [if_pos (mul_nonneg (le_of_lt hy) (by norm_num)), round_eq]
    exact Int.floor_le_floor (by linarith)
  · have h1 : (laSchedule q b z d).length ≤ (laNumPayments z).toNat := by
      simp only [laSchedule]
      exact laLoop_length_le _ _ _ _ _ _ _
    refine le_trans h1 (Int.toNat_le_toNat ?_)
    simp only [laNumPayments, pyTrunc]
    rw [if_pos (mul_nonneg (le_of_lt hz) (by norm_num)), round_eq]
    exact Int.floor_le_floor (by linarith)
  · simp only [lmNumPeriods, pyTruncR]
    rw [if_pos (by norm_num : (0 : ℝ) ≤ 55/2 * 12)]
    rw [show (55/2 : ℝ) * 12 = 330 by norm_num]
    norm_num
  · norm_num [laNumPayments, pyTrunc]

/-- Witness for C7 at the loan `(1200, 0, 1/6)`. -/
theorem c7_length_bound_witness :
    (0 : ℝ) < 1/6 ∧ (0 : ℚ) < 1/6 ∧
      ((lmSchedule 1200 0 (1/6) 1).length ≤ (round ((1/6 : ℝ) * 12)).toNat
      ∧ (laSchedule 1200 0 (1/6) ⟨2025, 1, 1⟩).length ≤
          (round ((1/6 : ℚ) * 12)).toNat
      ∧ lmNumPeriods (55/2 : ℝ) = 330
      ∧ laNumPayments (55/2 : ℚ) = 330) :=
  ⟨by norm_num, by norm_num,
    c7_length_bound 1200 0 (1/6) 1200 0 (1/6) 1 ⟨2025, 1, 1⟩ (by norm_num)
      (by norm_num)⟩

/-! ### Claim C8 -/

/-- C8 is false as stated for an omitted `start_date`: loan_app defaults it to
`datetime.now()`, a hidden input, and the schedule records embed the resulting
dates.  Two calls whose clock reads differ by a month produce different record
sequences for the same loan terms, as these two evaluations of the same loan
`(1200, 0, 1/12)` show. -/
theorem c8_hidden_state_counterexample :
    laSchedule 1200 0 (1/12) ⟨2025, 1, 15⟩ ≠ laSchedule 1200 0 (1/12) ⟨2025, 2, 15⟩ := by
  have h1 : laSchedule 1200 0 (1/12) ⟨2025, 1, 15⟩ =
      [⟨1, ⟨2025, 1, 15⟩, 1200, 1200, 1200, 0, 0, 0⟩] := by
    norm_num [laSchedule, laLoop, laMonthlyPayment, laNumPayments, pyTrunc]
  have h2 : laSchedule 1200 0 (1/12) ⟨2025, 2, 15⟩ =
      [⟨1, ⟨2025, 2, 15⟩, 1200, 1200, 1200, 0, 0, 0⟩] := by
    norm_num [laSchedule, laLoop, laMonthlyPayment, laNumPayments, pyTrunc]
  rw [h1, h2]
  simp [LARecord.mk.injEq, PyDate.mk.injEq]

/-- C8 (amended): both schedule generators are pure functions of their explicit
inputs once the effective start date is an explicit argument: two calls with
identical loan terms and the same effective start date return identical record
sequences, and the loan_manager schedule does not depend on its (unused)
`start_month` argument at all.  When `start_date` is omitted, loan_app
substitutes the current clock time, so only calls whose clock reads agree are
guaranteed identical sequences. -/
theorem c8_deterministic (p a y : ℚ) (P A Y : ℝ) (d1 d2 : PyDate) (s1 s2 : ℕ)
    (h : d1 = d2) :
    laSchedule p a y d1 = laSchedule p a y d2
    ∧ lmSchedule P A Y s1 = lmSchedule P A Y s2 := by
  subst h
  exact ⟨rfl, rfl⟩

/-- Witness for the amended C8 theorem at the loan `(1200, 0, 1)` with equal
start dates and different (ignored) `start_month` arguments. -/
theorem c8_deterministic_witness :
    (⟨2025, 1, 1⟩ : PyDate) = ⟨2025, 1, 1⟩ ∧
      (laSchedule 1200 0 1 ⟨2025, 1, 1⟩ = laSchedule 1200 0 1 ⟨2025, 1, 1⟩
        ∧ lmSchedule 1200 0 1 1 = lmSchedule 1200 0 1 2) :=
  ⟨rfl, c8_deterministic 1200 0 1 1200 0 1 ⟨2025, 1, 1⟩ ⟨2025, 1, 1⟩ 1 2 rfl⟩

/-! ### Claim C9 -/

/-- C9: for valid inputs with positive principal, every emitted record has a
strictly positive beginning balance, in both implementations: the first record
begins at the principal, and a later record only exists because the loop did
not break, i.e. the running balance was still positive, so interest is never
accrued on a non-positive balance. -/
theorem c9_beginning_balance_pos (p a y : ℝ) (q b z : ℚ) (s : ℕ) (d : PyDate)
    (i j : ℕ)
    (hp : 0 < p) (ha : 0 ≤ a) (hy : 0 < y)
    (hq : 0 < q) (hb : 0 ≤ b) (hz : 0 < z)
    (hi : i < (lmSchedule p a y s).length)
    (hj : j < (laSchedule q b z d).length) :
    0 < ((lmSchedule p a y s).getD i default).beginning_balance
    ∧ 0 < ((laSchedule q b z d).getD j default).beginning_balance := by
  simp only [lmSchedule] at hi ⊢
  simp only [laSchedule] at hj ⊢
  exact ⟨lmLoop_beginning_pos _ _ _ _ _ hp i hi,
    laLoop_beginning_pos _ _ _ _ _ _ _ hq j hj⟩

/-- Witness for C9 at the loan `(1200, 0, 1/6)`, second record of each
schedule. -/
theorem c9_beginning_balance_pos_witness :
    1 < (lmSchedule 1200 0 (1/6) 1).length ∧
    1 < (laSchedule 1200 0 (1/6) ⟨2025, 1, 1⟩).length ∧
      (0 < ((lmSchedule 1200 0 (1/6) 1).getD 1 default).beginning_balance
      ∧ 0 < ((laSchedule 1200 0 (1/6) ⟨2025, 1, 1⟩).getD 1 default).beginning_balance) := by
  have h1 : 1 < (lmSchedule 1200 0 (1/6) 1).length := by
    rw [lmSchedule_two_records]
    norm_num
  have h2 : 1 < (laSchedule 1200 0 (1/6) ⟨2025, 1, 1⟩).length := by
    rw [laSchedule_two_records]
    norm_num
  exact ⟨h1, h2,
    c9_beginning_balance_pos 1200 0 (1/6) 1200 0 (1/6) 1 ⟨2025, 1, 1⟩ 1 1
      (by norm_num) le_rfl (by norm_num) (by norm_num) le_rfl (by norm_num) h1 h2⟩

/-! ### Claim C10 -/

/-- C10: when `term_years × 12` is a whole number `m` (and the rate is
positive), the unrounded real exponent used by
`LoanScenarioAnalyzer.calculate_monthly_payment` equals `m` and the truncated
integer exponent used by `LoanAnalyzer.calculate_monthly_payment` equals `m` as
well, so the two implementations return equal payment amounts. -/
theorem c10_payment_impls_agree (p a y : ℚ) (m : ℕ) (ha : 0 < a) (hy : 0 < y)
    (hm : y * 12 = (m : ℚ)) :
    ((laMonthlyPayment p a y : ℚ) : ℝ) =
      lmMonthlyPayment (p : ℝ) (a : ℝ) (y : ℝ) := by
  have hane : a ≠ 0 := ne_of_gt ha
  have haner : (a : ℝ) ≠ 0 := by exact_mod_cast hane
  have hnum : laNumPayments y = (m : ℤ) := by
    simp only [laNumPayments, pyTrunc]
    rw [hm, if_pos (by positivity)]
    exact_mod_cast Int.floor_natCast m
  simp only [laMonthlyPayment, lmMonthlyPayment]
  rw [if_neg hane, if_neg haner, hnum, zpow_natCast]
  have hyr : (y : ℝ) * 12 = (m : ℝ) := by exact_mod_cast hm
  rw [hyr, Real.rpow_natCast]
  push_cast
  ring

/-- Witness for C10 at `(1, 1200, 1)`: a one-year loan with 12 whole periods. -/
theorem c10_payment_impls_agree_witness :
    (0 : ℚ) < 1200 ∧ (0 : ℚ) < 1 ∧ (1 : ℚ) * 12 = ((12 : ℕ) : ℚ) ∧
      ((laMonthlyPayment 1 1200 1 : ℚ) : ℝ) =
        lmMonthlyPayment ((1 : ℚ) : ℝ) ((1200 : ℚ) : ℝ) ((1 : ℚ) : ℝ) :=
  ⟨by norm_num, by norm_num, by norm_num,
    c10_payment_impls_agree 1 1200 1 12 (by norm_num) (by norm_num) (by norm_num)⟩
